import Mathlib

/-!
Shallow embedding of the subscription-billing worker:
`worker/services/stripe/StripeService.ts` (database-facing handlers) and
`worker/api/controllers/subscription/controller.ts` (the subscription status
endpoint and the Stripe webhook controller `handleStripeWebhook`).

Dates (`new Date(x * 1000)`) are modelled as milliseconds-since-epoch
integers; the ambient clock (`new Date()`) is an explicit `now : Int`
parameter.  The D1/SQLite store is a pair of lists of rows; an `insert`
into a table whose primary key is already present fails with a UNIQUE
constraint error, exactly as SQLite does, and a `update ... where` maps
over the rows.  Calls out to the Stripe API (`stripe.subscriptions.update`,
logging) have no local-state effect and are not modelled; the provider
SDK's `webhooks.constructEvent` is an abstract field of `StripeSDK`.
JavaScript truthiness of optional strings (`!s`, `a || b`) is modelled by
`truthyStr`: both an absent field and an empty string are falsy.
-/

namespace VibeSDK

/-- JS truthiness of a possibly-absent string: `undefined`/`null` and `""`
are falsy, every other string is truthy. -/
def truthyStr : Option String → Bool
  | none => false
  | some s => !(s == "")

/-- A row of the `subscriptions` table (drizzle schema / migration
`0004_safe_gambit.sql`).  Timestamps are ms-since-epoch. -/
structure SubRow where
  id : String
  userId : String
  stripeCustomerId : String
  stripePriceId : String
  stripeProductId : String
  status : String
  cancelAtPeriodEnd : Bool
  currentPeriodStart : Int
  currentPeriodEnd : Int
  canceledAt : Option Int
  trialStart : Option Int
  trialEnd : Option Int
  createdAt : Int
  updatedAt : Int
deriving Repr, DecidableEq

/-- A row of the `payments` table. -/
structure PayRow where
  id : String
  userId : String
  subscriptionId : Option String
  stripeInvoiceId : Option String
  stripeCustomerId : String
  amount : Int
  currency : String
  status : String
  description : String
  receiptUrl : Option String
  createdAt : Int
  paidAt : Int
deriving Repr, DecidableEq

/-- The local relational store: the two tables the webhook paths write. -/
structure DB where
  subscriptions : List SubRow
  payments : List PayRow
deriving Repr, DecidableEq

/-- Embeds `INSERT INTO subscriptions`: fails when the primary key is taken. -/
def insertSub (db : DB) (r : SubRow) : Except String DB :=
  if db.subscriptions.any (fun s => s.id == r.id) then
    .error "UNIQUE constraint failed: subscriptions.id"
  else
    .ok { db with subscriptions := db.subscriptions ++ [r] }

/-- Embeds `INSERT INTO payments`: fails when the primary key is taken. -/
def insertPay (db : DB) (r : PayRow) : Except String DB :=
  if db.payments.any (fun p => p.id == r.id) then
    .error "UNIQUE constraint failed: payments.id"
  else
    .ok { db with payments := db.payments ++ [r] }

/-- Embeds `UPDATE subscriptions SET ... WHERE id = sid`. -/
def updateSubWhereId (db : DB) (sid : String) (f : SubRow → SubRow) : DB :=
  { db with subscriptions := db.subscriptions.map (fun r => if r.id == sid then f r else r) }

/-- The `metadata` object of a Stripe subscription or invoice; only
`userId` is read by this code. -/
structure Metadata where
  userId : Option String
deriving Repr, DecidableEq

/-- The `price` of a subscription item (`items.data[i].price`). -/
structure SubItemPrice where
  id : String
  product : String
deriving Repr, DecidableEq

/-- The fields of a `Stripe.Subscription` event object that the handlers
read.  `itemPrices` is the list `items.data` projected to each item's
price; timestamps are Unix seconds. -/
structure StripeSubscription where
  id : String
  customer : String
  metadata : Metadata
  itemPrices : List SubItemPrice
  status : String
  cancel_at_period_end : Bool
  current_period_start : Int
  current_period_end : Int
  canceled_at : Option Int
  trial_start : Option Int
  trial_end : Option Int
deriving Repr, DecidableEq

/-- The `subscription_details` object of an invoice (only its metadata is read). -/
structure SubscriptionDetails where
  metadata : Option Metadata
deriving Repr, DecidableEq

/-- The `status_transitions` object of an invoice.  The code asserts `paid_at!` non-null,
so it is modelled as present. -/
structure StatusTransitions where
  paid_at : Int
deriving Repr, DecidableEq

/-- The fields of a `Stripe.Invoice` event object that
`handleInvoicePaymentSucceeded` reads. -/
structure StripeInvoice where
  id : String
  payment_intent : Option String
  subscription : Option String
  customer : String
  amount_paid : Int
  currency : String
  description : Option String
  hosted_invoice_url : Option String
  metadata : Option Metadata
  subscription_details : Option SubscriptionDetails
  status_transitions : StatusTransitions
deriving Repr, DecidableEq

/-- Embeds `cancelSubscription` (local effect): sets `cancelAtPeriodEnd` and
`updatedAt` on the row with the matching id.  The provider-side
`stripe.subscriptions.update` call has no local-state effect. -/
def cancelSubscription (db : DB) (subscriptionId : String) (now : Int) : DB :=
  updateSubWhereId db subscriptionId
    (fun r => { r with cancelAtPeriodEnd := true, updatedAt := now })

/-- Embeds `reactivateSubscription` (local effect). -/
def reactivateSubscription (db : DB) (subscriptionId : String) (now : Int) : DB :=
  updateSubWhereId db subscriptionId
    (fun r => { r with cancelAtPeriodEnd := false, updatedAt := now })

/-- Embeds `getUserSubscription`: first row with this user id and status
`active` (`SELECT ... WHERE userId = u AND status = 'active' LIMIT 1`). -/
def getUserSubscription (db : DB) (userId : String) : Option SubRow :=
  db.subscriptions.find? (fun r => r.userId == userId && r.status == "active")

/-- Embeds `hasActiveSubscription`. -/
def hasActiveSubscription (db : DB) (userId : String) : Bool :=
  (getUserSubscription db userId).isSome

/-- The `NewSubscription` record built by `handleSubscriptionCreated`. -/
def subRowOf (sub : StripeSubscription) (uid : String) (item : SubItemPrice)
    (now : Int) : SubRow :=
  { id := sub.id
    userId := uid
    stripeCustomerId := sub.customer
    stripePriceId := item.id
    stripeProductId := item.product
    status := sub.status
    cancelAtPeriodEnd := sub.cancel_at_period_end
    currentPeriodStart := sub.current_period_start * 1000
    currentPeriodEnd := sub.current_period_end * 1000
    canceledAt := none
    trialStart := sub.trial_start.map (· * 1000)
    trialEnd := sub.trial_end.map (· * 1000)
    createdAt := now
    updatedAt := now }

/-- Embeds `handleSubscriptionCreated`: throws when the subscription metadata
carries no truthy userId (`if (!userId) throw`; an absent field is read
as `getD ""`, so both absence and the empty string are falsy), reads
`items.data[0].price` (a TypeError when the item list is empty), and
inserts the mirrored row. -/
def handleSubscriptionCreated (db : DB) (sub : StripeSubscription) (now : Int) :
    Except String DB :=
  if sub.metadata.userId.getD "" == "" then
    .error "No userId in subscription metadata"
  else
    match sub.itemPrices with
    | [] => .error "TypeError: cannot read properties of undefined"
    | item :: _ => insertSub db (subRowOf sub (sub.metadata.userId.getD "") item now)

/-- Embeds `handleSubscriptionUpdated`: writes the provider fields onto the row
with the matching id. -/
def handleSubscriptionUpdated (db : DB) (sub : StripeSubscription) (now : Int) : DB :=
  updateSubWhereId db sub.id
    (fun r => { r with
      status := sub.status
      cancelAtPeriodEnd := sub.cancel_at_period_end
      currentPeriodStart := sub.current_period_start * 1000
      currentPeriodEnd := sub.current_period_end * 1000
      canceledAt := sub.canceled_at.map (· * 1000)
      updatedAt := now })

/-- Embeds `handleSubscriptionDeleted`: marks the row canceled. -/
def handleSubscriptionDeleted (db : DB) (sub : StripeSubscription) (now : Int) : DB :=
  updateSubWhereId db sub.id
    (fun r => { r with status := "canceled", canceledAt := some now, updatedAt := now })

/-- The effective userId of an invoice:
`invoice.metadata?.userId || invoice.subscription_details?.metadata?.userId`,
`none` when both are falsy. -/
def invoiceUserId (inv : StripeInvoice) : Option String :=
  let a := inv.metadata.bind Metadata.userId
  let b := (inv.subscription_details.bind SubscriptionDetails.metadata).bind Metadata.userId
  if truthyStr a then a else if truthyStr b then b else none

/-- The payment row id: `invoice.payment_intent as string || 'pi_' + invoice.id`. -/
def payRowId (inv : StripeInvoice) : String :=
  if truthyStr inv.payment_intent then inv.payment_intent.getD "" else "pi_" ++ inv.id

/-- The `NewPayment` record built by `handleInvoicePaymentSucceeded`. -/
def payRowOf (inv : StripeInvoice) (uid : String) (now : Int) : PayRow :=
  { id := payRowId inv
    userId := uid
    subscriptionId := if truthyStr inv.subscription then inv.subscription else none
    stripeInvoiceId := some inv.id
    stripeCustomerId := inv.customer
    amount := inv.amount_paid
    currency := inv.currency
    status := "succeeded"
    description := if truthyStr inv.description then inv.description.getD ""
                   else "Subscription payment"
    receiptUrl := inv.hosted_invoice_url
    createdAt := now
    paidAt := inv.status_transitions.paid_at * 1000 }

/-- Embeds `handleInvoicePaymentSucceeded`: returns silently (warn only) when no
userId can be found, otherwise inserts the mirrored payment row. -/
def handleInvoicePaymentSucceeded (db : DB) (inv : StripeInvoice) (now : Int) :
    Except String DB :=
  match invoiceUserId inv with
  | none => .ok db
  | some uid => insertPay db (payRowOf inv uid now)

/-- The `data.object` of a webhook event: the dispatcher casts it to a
subscription or an invoice depending on `event.type`. -/
inductive EventObject where
  | sub (s : StripeSubscription)
  | inv (i : StripeInvoice)
deriving Repr, DecidableEq

/-- A verified `Stripe.Event`. -/
structure StripeEvent where
  id : String
  type : String
  object : EventObject
deriving Repr, DecidableEq

/-- The Stripe SDK surface the webhook path uses: `webhooks.constructEvent`,
which either produces the verified event or throws. -/
structure StripeSDK where
  constructEvent : String → String → String → Except String StripeEvent

/-- Embeds `verifyWebhookSignature`: a pure delegation to the SDK's
`webhooks.constructEvent` on the same three arguments. -/
def verifyWebhookSignature (sdk : StripeSDK) (payload signature webhookSecret : String) :
    Except String StripeEvent :=
  sdk.constructEvent payload signature webhookSecret

/-- An HTTP response (status and body). -/
structure HttpResponse where
  status : Nat
  body : String
deriving Repr, DecidableEq

/-- The 200 acknowledgement body of a processed (or ignored) event. -/
def receivedResp : HttpResponse :=
  { status := 200, body := "\x7b\"received\":true\x7d" }

/-- The 200 acknowledgement body when event processing threw. -/
def processingFailedResp : HttpResponse :=
  { status := 200, body := "\x7b\"received\":true,\"error\":\"Processing failed\"\x7d" }

/-- The body of the `switch (event.type)` inside the inner `try` of
`handleStripeWebhook`: the six handled cases and the logging-only default.
A handled case whose object is of the wrong shape is a runtime TypeError,
modelled as an error. -/
def dispatchResult (db : DB) (e : StripeEvent) (now : Int) : Except String DB :=
  if e.type == "customer.subscription.created" then
    match e.object with
    | .sub s => handleSubscriptionCreated db s now
    | .inv _ => .error "TypeError"
  else if e.type == "customer.subscription.updated" then
    match e.object with
    | .sub s => .ok (handleSubscriptionUpdated db s now)
    | .inv _ => .error "TypeError"
  else if e.type == "customer.subscription.deleted" then
    match e.object with
    | .sub s => .ok (handleSubscriptionDeleted db s now)
    | .inv _ => .error "TypeError"
  else if e.type == "invoice.payment_succeeded" then
    match e.object with
    | .inv i => handleInvoicePaymentSucceeded db i now
    | .sub _ => .error "TypeError"
  else
    .ok db

/-- The inner `try`/`catch` of `handleStripeWebhook` around the event
switch: success is acknowledged with `receivedResp`; an error is logged
and acknowledged with `processingFailedResp`, the store untouched. -/
def dispatchEvent (db : DB) (e : StripeEvent) (now : Int) : HttpResponse × DB :=
  match dispatchResult db e now with
  | .ok db2 => (receivedResp, db2)
  | .error _ => (processingFailedResp, db)

/-- The store after delivering event `e` at time `now`. -/
def dispatchState (db : DB) (e : StripeEvent) (now : Int) : DB :=
  (dispatchEvent db e now).2

/-- A webhook HTTP request: raw body and the `stripe-signature` header. -/
structure WebhookRequest where
  body : String
  stripeSignature : Option String
deriving Repr, DecidableEq

/-- Embeds `handleStripeWebhook` (`POST /api/webhooks/stripe`): reject a missing
(or empty, JS-falsy: `if (!signature)`) signature header with 400, reject
a failing verification with 400, otherwise dispatch the verified event.
The header value is read with `getD ""`, which the truthiness guard makes
observably identical to the TypeScript. -/
def handleStripeWebhook (sdk : StripeSDK) (webhookSecret : String) (db : DB)
    (req : WebhookRequest) (now : Int) : HttpResponse × DB :=
  if truthyStr req.stripeSignature = false then
    ({ status := 400, body := "Missing signature" }, db)
  else
    match verifyWebhookSignature sdk req.body (req.stripeSignature.getD "") webhookSecret with
    | .error _ => ({ status := 400, body := "Invalid signature" }, db)
    | .ok e => dispatchEvent db e now

/-- An authenticated user on the route context. -/
structure AuthUser where
  id : String
  email : String
deriving Repr, DecidableEq

/-- The `subscription` object of the status endpoint's success body. -/
structure SubscriptionStatusView where
  id : String
  status : String
  currentPeriodEnd : Int
  cancelAtPeriodEnd : Bool
deriving Repr, DecidableEq

/-- Result of `GET /api/subscription/status`. -/
inductive StatusResult where
  | errorResponse (message : String) (status : Nat)
  | success (hasActiveSubscription : Bool) (subscription : Option SubscriptionStatusView)
deriving Repr, DecidableEq

/-- Embeds `SubscriptionController.getSubscriptionStatus`: 401 without a user,
otherwise a read-through of `getUserSubscription`. -/
def getSubscriptionStatus (db : DB) (user : Option AuthUser) : StatusResult :=
  match user with
  | none => .errorResponse "Unauthorized" 401
  | some u =>
    let s := getUserSubscription db u.id
    .success s.isSome (s.map fun r =>
      { id := r.id
        status := r.status
        currentPeriodEnd := r.currentPeriodEnd
        cancelAtPeriodEnd := r.cancelAtPeriodEnd })

/-! Concrete fixtures used by witness and counterexample theorems. -/

/-- An empty store. -/
def dbEmpty : DB := ⟨[], []⟩

/-- A well-formed subscription event object. -/
def subW : StripeSubscription :=
  { id := "sub_1", customer := "cus_1", metadata := ⟨some "user_1"⟩
    itemPrices := [⟨"price_1", "prod_1"⟩]
    status := "active", cancel_at_period_end := false
    current_period_start := 100, current_period_end := 200
    canceled_at := none, trial_start := none, trial_end := some 150 }

/-- A subscription event object with no userId in its metadata. -/
def subNoUid : StripeSubscription := { subW with id := "sub_2", metadata := ⟨none⟩ }

/-- A well-formed invoice event object. -/
def invW : StripeInvoice :=
  { id := "in_1", payment_intent := some "pi_9", subscription := some "sub_1"
    customer := "cus_1", amount_paid := 4900, currency := "usd"
    description := none, hosted_invoice_url := some "https://pay.example/r"
    metadata := some ⟨some "user_1"⟩, subscription_details := none
    status_transitions := ⟨300⟩ }

/-- An invoice with a userId but no payment intent. -/
def invNoPi : StripeInvoice := { invW with id := "in_777", payment_intent := none }

/-- An invoice with no userId in either metadata location. -/
def invNoUid : StripeInvoice :=
  { invW with metadata := none, subscription_details := some ⟨some ⟨none⟩⟩ }

/-- A `customer.subscription.created` event over `subW`. -/
def evtCreatedW : StripeEvent := ⟨"evt_1", "customer.subscription.created", .sub subW⟩

/-- An `invoice.payment_failed` event. -/
def evtFailedW : StripeEvent := ⟨"evt_2", "invoice.payment_failed", .inv invW⟩

/-- A created event whose subscription has no userId. -/
def evtCreatedNoUid : StripeEvent := ⟨"evt_3", "customer.subscription.created", .sub subNoUid⟩

/-- An `invoice.payment_succeeded` event over `invW`. -/
def evtInvoiceW : StripeEvent := ⟨"evt_4", "invoice.payment_succeeded", .inv invW⟩

/-- An SDK whose `constructEvent` always verifies to `evtCreatedNoUid`. -/
def sdkNoUidW : StripeSDK := ⟨fun _ _ _ => .ok evtCreatedNoUid⟩

/-- An SDK whose `constructEvent` always throws. -/
def sdkRejectW : StripeSDK := ⟨fun _ _ _ => .error "signature mismatch"⟩

/-- An active-subscription row for user_1 (as the created handler would
have inserted it at time 5). -/
def rowW : SubRow := subRowOf subW "user_1" ⟨"price_1", "prod_1"⟩ 5

/-- A store with one active subscription row. -/
def dbActiveW : DB := ⟨[rowW], []⟩

/-- An updated-subscription event over subW with a changed status. -/
def evtUpdatedW : StripeEvent :=
  ⟨"evt_u", "customer.subscription.updated", .sub { subW with status := "past_due" }⟩

/-- The store after delivering evtCreatedW once at time 3. -/
def dbOneW : DB := dispatchState dbEmpty evtCreatedW 3

/-- The state selected by the dispatcher from a handler result: the new
store on success, the incoming store on a caught error. -/
def exceptState (r : Except String DB) (db : DB) : DB :=
  match r with
  | .ok d => d
  | .error _ => db

end VibeSDK

namespace VibeSDK

/-! Helper lemmas. -/

theorem dispatchState_eq (db : DB) (e : StripeEvent) (now : Int) :
    dispatchState db e now = exceptState (dispatchResult db e now) db := by
  unfold dispatchState dispatchEvent exceptState
  cases dispatchResult db e now <;> rfl

theorem insertSub_ok_mem (db db2 : DB) (r : SubRow)
    (h : insertSub db r = .ok db2) :
    db2.subscriptions.any (fun s => s.id == r.id) = true ∧ db2.payments = db.payments := by
  unfold insertSub at h
  by_cases hc : db.subscriptions.any (fun s => s.id == r.id) = true
  · simp [hc] at h
  · simp [hc] at h
    subst h
    simp [List.any_append]

theorem insertSub_dup (db : DB) (r : SubRow)
    (h : db.subscriptions.any (fun s => s.id == r.id) = true) :
    insertSub db r = .error "UNIQUE constraint failed: subscriptions.id" := by
  unfold insertSub
  simp [h]

theorem insertPay_ok_mem (db db2 : DB) (r : PayRow)
    (h : insertPay db r = .ok db2) :
    db2.payments.any (fun p => p.id == r.id) = true ∧ db2.subscriptions = db.subscriptions := by
  unfold insertPay at h
  by_cases hc : db.payments.any (fun p => p.id == r.id) = true
  · simp [hc] at h
  · simp [hc] at h
    subst h
    simp [List.any_append]

theorem insertPay_dup (db : DB) (r : PayRow)
    (h : db.payments.any (fun p => p.id == r.id) = true) :
    insertPay db r = .error "UNIQUE constraint failed: payments.id" := by
  unfold insertPay
  simp [h]

theorem subRowOf_id (sub : StripeSubscription) (uid : String) (item : SubItemPrice)
    (now : Int) : (subRowOf sub uid item now).id = sub.id := rfl

theorem payRowOf_id (inv : StripeInvoice) (uid : String) (now : Int) :
    (payRowOf inv uid now).id = payRowId inv := rfl

theorem insertSub_err_congr (db : DB) (r r2 : SubRow) (hid : r2.id = r.id) (m : String)
    (h : insertSub db r = .error m) : insertSub db r2 = .error m := by
  unfold insertSub at h ⊢
  simp only [hid]
  by_cases hc : db.subscriptions.any (fun s => s.id == r.id) = true
  · simp only [hc, if_true] at h ⊢
    exact h
  · simp [hc] at h

theorem insertPay_err_congr (db : DB) (r r2 : PayRow) (hid : r2.id = r.id) (m : String)
    (h : insertPay db r = .error m) : insertPay db r2 = .error m := by
  unfold insertPay at h ⊢
  simp only [hid]
  by_cases hc : db.payments.any (fun p => p.id == r.id) = true
  · simp only [hc, if_true] at h ⊢
    exact h
  · simp [hc] at h

theorem created_err_stable (db : DB) (sub : StripeSubscription) (t1 t2 : Int) (m : String)
    (h : handleSubscriptionCreated db sub t1 = .error m) :
    handleSubscriptionCreated db sub t2 = .error m := by
  unfold handleSubscriptionCreated at h ⊢
  by_cases he : (sub.metadata.userId.getD "" == "") = true
  · rw [if_pos he] at h ⊢
    exact h
  · rw [if_neg he] at h ⊢
    revert h
    cases hi : sub.itemPrices with
    | nil => exact fun h => h
    | cons item rest =>
      exact fun h =>
        insertSub_err_congr db (subRowOf sub (sub.metadata.userId.getD "") item t1)
          (subRowOf sub (sub.metadata.userId.getD "") item t2) rfl m h

theorem created_mem_of_ok (db db2 : DB) (sub : StripeSubscription) (t : Int)
    (h : handleSubscriptionCreated db sub t = .ok db2) :
    db2.subscriptions.any (fun s => s.id == sub.id) = true ∧ db2.payments = db.payments := by
  unfold handleSubscriptionCreated at h
  by_cases he : (sub.metadata.userId.getD "" == "") = true
  · rw [if_pos he] at h
    exact Except.noConfusion h
  · rw [if_neg he] at h
    revert h
    cases hi : sub.itemPrices with
    | nil => exact fun h => Except.noConfusion h
    | cons item rest =>
      intro h
      have := insertSub_ok_mem db db2 _ h
      simpa [subRowOf_id] using this

theorem created_dup (db : DB) (sub : StripeSubscription) (t : Int)
    (hmem : db.subscriptions.any (fun s => s.id == sub.id) = true) :
    ∃ m, handleSubscriptionCreated db sub t = .error m := by
  unfold handleSubscriptionCreated
  by_cases he : (sub.metadata.userId.getD "" == "") = true
  · rw [if_pos he]
    exact ⟨_, rfl⟩
  · rw [if_neg he]
    cases hi : sub.itemPrices with
    | nil => exact ⟨_, rfl⟩
    | cons item rest =>
      exact ⟨_, insertSub_dup db _ (by simpa [subRowOf_id] using hmem)⟩

theorem invoice_err_stable (db : DB) (inv : StripeInvoice) (t1 t2 : Int) (m : String)
    (h : handleInvoicePaymentSucceeded db inv t1 = .error m) :
    handleInvoicePaymentSucceeded db inv t2 = .error m := by
  unfold handleInvoicePaymentSucceeded at h ⊢
  revert h
  cases hu : invoiceUserId inv with
  | none => exact fun h => Except.noConfusion h
  | some uid =>
    exact fun h => insertPay_err_congr db (payRowOf inv uid t1) (payRowOf inv uid t2) rfl m h

theorem created_state_idem (db : DB) (sub : StripeSubscription) (t1 t2 : Int) :
    exceptState
        (handleSubscriptionCreated (exceptState (handleSubscriptionCreated db sub t1) db) sub t2)
        (exceptState (handleSubscriptionCreated db sub t1) db)
      = exceptState (handleSubscriptionCreated db sub t1) db := by
  cases h1 : handleSubscriptionCreated db sub t1 with
  | error m =>
    simp [exceptState, created_err_stable db sub t1 t2 m h1]
  | ok db2 =>
    simp only [exceptState]
    obtain ⟨m, h2⟩ := created_dup db2 sub t2 (created_mem_of_ok db db2 sub t1 h1).1
    simp [h2, exceptState]

theorem invoice_state_idem (db : DB) (inv : StripeInvoice) (t1 t2 : Int) :
    exceptState
        (handleInvoicePaymentSucceeded (exceptState (handleInvoicePaymentSucceeded db inv t1) db) inv t2)
        (exceptState (handleInvoicePaymentSucceeded db inv t1) db)
      = exceptState (handleInvoicePaymentSucceeded db inv t1) db := by
  cases h1 : handleInvoicePaymentSucceeded db inv t1 with
  | error m =>
    simp [exceptState, invoice_err_stable db inv t1 t2 m h1]
  | ok db2 =>
    simp only [exceptState]
    unfold handleInvoicePaymentSucceeded at h1 ⊢
    revert h1
    cases hu : invoiceUserId inv with
    | none =>
      intro h1
      have hdb : db = db2 := by injection h1
      subst hdb
      rfl
    | some uid =>
      intro h1
      have hmem : db2.payments.any (fun p => p.id == payRowId inv) = true := by
        have := (insertPay_ok_mem db db2 _ h1).1
        simpa [payRowOf_id] using this
      have h2 : insertPay db2 (payRowOf inv uid t2) =
          .error "UNIQUE constraint failed: payments.id" :=
        insertPay_dup db2 _ (by simpa [payRowOf_id] using hmem)
      simp [h2, exceptState]

theorem map_if_idem {α : Type} (p : α → Bool) (f : α → α)
    (hp : ∀ a, p (f a) = p a) (hff : ∀ a, f (f a) = f a) (l : List α) :
    (l.map (fun a => if p a then f a else a)).map (fun a => if p a then f a else a)
      = l.map (fun a => if p a then f a else a) := by
  induction l with
  | nil => rfl
  | cons x xs ih =>
    simp only [List.map_cons, ih, List.cons.injEq, and_true]
    by_cases hx : p x = true
    · simp [hx, hp, hff]
    · simp [hx]

theorem updateSubWhereId_twice (db : DB) (sid : String) (f : SubRow → SubRow)
    (hid : ∀ r, (f r).id = r.id) (hff : ∀ r, f (f r) = f r) :
    updateSubWhereId (updateSubWhereId db sid f) sid f = updateSubWhereId db sid f := by
  have hmap := map_if_idem (fun r => r.id == sid) f (fun r => by simp only [hid]) hff db.subscriptions
  cases db with
  | mk subs pays =>
    show DB.mk
        (((subs.map (fun r => if r.id == sid then f r else r)).map
          (fun r => if r.id == sid then f r else r))) pays
      = DB.mk (subs.map (fun r => if r.id == sid then f r else r)) pays
    rw [hmap]

theorem handleSubscriptionUpdated_idem (db : DB) (sub : StripeSubscription) (t : Int) :
    handleSubscriptionUpdated (handleSubscriptionUpdated db sub t) sub t
      = handleSubscriptionUpdated db sub t := by
  unfold handleSubscriptionUpdated
  exact updateSubWhereId_twice db sub.id _ (fun r => rfl) (fun r => by cases r; rfl)

theorem handleSubscriptionDeleted_idem (db : DB) (sub : StripeSubscription) (t : Int) :
    handleSubscriptionDeleted (handleSubscriptionDeleted db sub t) sub t
      = handleSubscriptionDeleted db sub t := by
  unfold handleSubscriptionDeleted
  exact updateSubWhereId_twice db sub.id _ (fun r => rfl) (fun r => by cases r; rfl)

theorem map_proj_if {α β : Type} (proj : α → β) (p : α → Bool) (f : α → α)
    (hproj : ∀ a, proj (f a) = proj a) (l : List α) :
    (l.map (fun a => if p a then f a else a)).map proj = l.map proj := by
  rw [List.map_map]
  apply List.map_congr_left
  intro a _
  by_cases ha : p a = true
  · simp [ha, hproj]
  · simp [ha]

theorem find?_isSome_map_pres {α : Type} (p : α → Bool) (f : α → α)
    (hp : ∀ a, p (f a) = p a) (l : List α) :
    ((l.map f).find? p).isSome = (l.find? p).isSome := by
  induction l with
  | nil => rfl
  | cons x xs ih =>
    simp only [List.map_cons]
    by_cases hx : p x = true
    · rw [List.find?_cons_of_pos _ (by rw [hp]; exact hx), List.find?_cons_of_pos _ hx]
      rfl
    · rw [List.find?_cons_of_neg _ (by rw [hp]; exact hx), List.find?_cons_of_neg _ hx]
      exact ih

theorem dispatchResult_created (db : DB) (eid : String) (s : StripeSubscription) (now : Int) :
    dispatchResult db ⟨eid, "customer.subscription.created", .sub s⟩ now
      = handleSubscriptionCreated db s now := by
  simp [dispatchResult]

theorem dispatchResult_created_inv (db : DB) (eid : String) (i : StripeInvoice) (now : Int) :
    dispatchResult db ⟨eid, "customer.subscription.created", .inv i⟩ now
      = .error "TypeError" := by
  simp [dispatchResult]

theorem dispatchResult_updated (db : DB) (eid : String) (s : StripeSubscription) (now : Int) :
    dispatchResult db ⟨eid, "customer.subscription.updated", .sub s⟩ now
      = .ok (handleSubscriptionUpdated db s now) := by
  simp [dispatchResult]

theorem dispatchResult_updated_inv (db : DB) (eid : String) (i : StripeInvoice) (now : Int) :
    dispatchResult db ⟨eid, "customer.subscription.updated", .inv i⟩ now
      = .error "TypeError" := by
  simp [dispatchResult]

theorem dispatchResult_deleted (db : DB) (eid : String) (s : StripeSubscription) (now : Int) :
    dispatchResult db ⟨eid, "customer.subscription.deleted", .sub s⟩ now
      = .ok (handleSubscriptionDeleted db s now) := by
  simp [dispatchResult]

theorem dispatchResult_deleted_inv (db : DB) (eid : String) (i : StripeInvoice) (now : Int) :
    dispatchResult db ⟨eid, "customer.subscription.deleted", .inv i⟩ now
      = .error "TypeError" := by
  simp [dispatchResult]

theorem dispatchResult_paysucc (db : DB) (eid : String) (i : StripeInvoice) (now : Int) :
    dispatchResult db ⟨eid, "invoice.payment_succeeded", .inv i⟩ now
      = handleInvoicePaymentSucceeded db i now := by
  simp [dispatchResult]

theorem dispatchResult_paysucc_sub (db : DB) (eid : String) (s : StripeSubscription) (now : Int) :
    dispatchResult db ⟨eid, "invoice.payment_succeeded", .sub s⟩ now
      = .error "TypeError" := by
  simp [dispatchResult]

theorem dispatchResult_other (db : DB) (e : StripeEvent) (now : Int)
    (h1 : e.type ≠ "customer.subscription.created")
    (h2 : e.type ≠ "customer.subscription.updated")
    (h3 : e.type ≠ "customer.subscription.deleted")
    (h4 : e.type ≠ "invoice.payment_succeeded") :
    dispatchResult db e now = .ok db := by
  simp [dispatchResult, h1, h2, h3, h4]

/-- C6: `verifyWebhookSignature` is a pure delegation: for every payload,
signature and secret it returns exactly what the provider SDK's
`webhooks.constructEvent` returns on those three arguments, with no local
checks or transformations. -/
theorem verifyWebhookSignature_delegates (sdk : StripeSDK)
    (payload signature webhookSecret : String) :
    verifyWebhookSignature sdk payload signature webhookSecret
      = sdk.constructEvent payload signature webhookSecret := rfl

/-- C7: a verified event of `invoice.payment_failed`,
`customer.subscription.trial_will_end`, or any type outside the
dispatcher's handled cases leaves the subscription and payment records
unchanged and is acknowledged with 200 `received: true`. -/
theorem unhandledEventNoWrite (db : DB) (e : StripeEvent) (now : Int)
    (h1 : e.type ≠ "customer.subscription.created")
    (h2 : e.type ≠ "customer.subscription.updated")
    (h3 : e.type ≠ "customer.subscription.deleted")
    (h4 : e.type ≠ "invoice.payment_succeeded") :
    dispatchEvent db e now = (receivedResp, db) := by
  unfold dispatchEvent
  rw [dispatchResult_other db e now h1 h2 h3 h4]

/-- C7 witness: concrete `invoice.payment_failed`, trial-will-end and
unknown-type events are acknowledged and leave the store unchanged. -/
theorem unhandledEventNoWrite_witness :
    dispatchEvent dbEmpty evtFailedW 0 = (receivedResp, dbEmpty) ∧
    dispatchEvent dbEmpty ⟨"evt_5", "customer.subscription.trial_will_end", .sub subW⟩ 0
      = (receivedResp, dbEmpty) ∧
    dispatchEvent dbEmpty ⟨"evt_6", "some.other.type", .inv invW⟩ 0
      = (receivedResp, dbEmpty) :=
  ⟨unhandledEventNoWrite dbEmpty evtFailedW 0
      (by decide) (by decide) (by decide) (by decide),
   unhandledEventNoWrite dbEmpty ⟨"evt_5", "customer.subscription.trial_will_end", .sub subW⟩ 0
      (by decide) (by decide) (by decide) (by decide),
   unhandledEventNoWrite dbEmpty ⟨"evt_6", "some.other.type", .inv invW⟩ 0
      (by decide) (by decide) (by decide) (by decide)⟩

/-- C2: when the signature header is present and verification succeeds but
processing of the event throws, `handleStripeWebhook` acknowledges with
HTTP 200 and body `received: true, error: Processing failed`, leaving the
store unchanged; there is no other recovery. -/
theorem webhookProcessingErrorAck (sdk : StripeSDK) (secret : String) (db : DB)
    (req : WebhookRequest) (now : Int) (sig : String) (e : StripeEvent) (msg : String)
    (hsig : req.stripeSignature = some sig)
    (hne : (sig == "") = false)
    (hver : sdk.constructEvent req.body sig secret = .ok e)
    (herr : dispatchResult db e now = .error msg) :
    handleStripeWebhook sdk secret db req now = (processingFailedResp, db) := by
  have ht : truthyStr req.stripeSignature = true := by
    rw [hsig]
    simp [truthyStr, hne]
  unfold handleStripeWebhook
  rw [ht, if_neg (by simp)]
  have hgd : req.stripeSignature.getD "" = sig := by
    rw [hsig]
    rfl
  rw [hgd]
  unfold verifyWebhookSignature
  rw [hver]
  show dispatchEvent db e now = (processingFailedResp, db)
  unfold dispatchEvent
  rw [herr]

/-- C2 witness: a webhook whose event is a created-subscription with no
userId verifies, throws in processing, and is acknowledged with the
processing-failed 200 body. -/
theorem webhookProcessingErrorAck_witness :
    handleStripeWebhook sdkNoUidW "whsec_1" dbEmpty ⟨"payload", some "t"⟩ 0
      = (processingFailedResp, dbEmpty) :=
  webhookProcessingErrorAck sdkNoUidW "whsec_1" dbEmpty ⟨"payload", some "t"⟩ 0 "t"
    evtCreatedNoUid "No userId in subscription metadata" rfl rfl rfl rfl

/-- C9: a webhook request with no (or an empty, JS-falsy) stripe-signature
header, or one whose signature fails verification, is rejected with 400
before any event is dispatched and the store is unchanged. -/
theorem webhookRejectsBadSignature (sdk : StripeSDK) (secret : String) (db : DB)
    (req : WebhookRequest) (now : Int) :
    (req.stripeSignature = none →
      handleStripeWebhook sdk secret db req now
        = (⟨400, "Missing signature"⟩, db)) ∧
    (∀ sig msg, req.stripeSignature = some sig → (sig == "") = false →
      sdk.constructEvent req.body sig secret = .error msg →
      handleStripeWebhook sdk secret db req now
        = (⟨400, "Invalid signature"⟩, db)) := by
  constructor
  · intro h
    unfold handleStripeWebhook
    rw [h]
    rfl
  · intro sig msg hsig hne hrej
    have ht : truthyStr req.stripeSignature = true := by
      rw [hsig]
      simp [truthyStr, hne]
    unfold handleStripeWebhook
    rw [ht, if_neg (by simp)]
    have hgd : req.stripeSignature.getD "" = sig := by
      rw [hsig]
      rfl
    rw [hgd]
    unfold verifyWebhookSignature
    rw [hrej]

/-- C9 witness: a concrete signature-less request and a concrete request
rejected by `constructEvent` both yield 400 on the unchanged store. -/
theorem webhookRejectsBadSignature_witness :
    handleStripeWebhook sdkRejectW "whsec_1" dbEmpty ⟨"payload", none⟩ 0
      = (⟨400, "Missing signature"⟩, dbEmpty) ∧
    handleStripeWebhook sdkRejectW "whsec_1" dbEmpty ⟨"payload", some "t"⟩ 0
      = (⟨400, "Invalid signature"⟩, dbEmpty) :=
  ⟨(webhookRejectsBadSignature sdkRejectW "whsec_1" dbEmpty ⟨"payload", none⟩ 0).1 rfl,
   (webhookRejectsBadSignature sdkRejectW "whsec_1" dbEmpty ⟨"payload", some "t"⟩ 0).2
      "t" "signature mismatch" rfl rfl rfl⟩

/-- C1: delivering the same verified provider event to the dispatcher
twice leaves the subscriptions and payments records in the same state as
delivering it once.  For the insert-backed `customer.subscription.created`
and `invoice.payment_succeeded` events this holds across any two clock
readings (the duplicate insert fails on the primary key and is caught);
for every event type it holds at an unchanged clock reading. -/
theorem webhookDispatchIdempotent (db : DB) (e : StripeEvent) (t1 t2 : Int) :
    (e.type = "customer.subscription.created" ∨ e.type = "invoice.payment_succeeded" →
      dispatchState (dispatchState db e t1) e t2 = dispatchState db e t1) ∧
    dispatchState (dispatchState db e t1) e t1 = dispatchState db e t1 := by
  obtain ⟨eid, etype, obj⟩ := e
  constructor
  · rintro (h | h) <;> subst h
    · cases obj with
      | sub s =>
        simp only [dispatchState_eq, dispatchResult_created]
        exact created_state_idem db s t1 t2
      | inv i =>
        simp [dispatchState_eq, dispatchResult_created_inv, exceptState]
    · cases obj with
      | sub s =>
        simp [dispatchState_eq, dispatchResult_paysucc_sub, exceptState]
      | inv i =>
        simp only [dispatchState_eq, dispatchResult_paysucc]
        exact invoice_state_idem db i t1 t2
  · by_cases h1 : etype = "customer.subscription.created"
    · subst h1
      cases obj with
      | sub s =>
        simp only [dispatchState_eq, dispatchResult_created]
        exact created_state_idem db s t1 t1
      | inv i =>
        simp [dispatchState_eq, dispatchResult_created_inv, exceptState]
    · by_cases h2 : etype = "customer.subscription.updated"
      · subst h2
        cases obj with
        | sub s =>
          simp only [dispatchState_eq, dispatchResult_updated, exceptState]
          exact handleSubscriptionUpdated_idem db s t1
        | inv i =>
          simp [dispatchState_eq, dispatchResult_updated_inv, exceptState]
      · by_cases h3 : etype = "customer.subscription.deleted"
        · subst h3
          cases obj with
          | sub s =>
            simp only [dispatchState_eq, dispatchResult_deleted, exceptState]
            exact handleSubscriptionDeleted_idem db s t1
          | inv i =>
            simp [dispatchState_eq, dispatchResult_deleted_inv, exceptState]
        · by_cases h4 : etype = "invoice.payment_succeeded"
          · subst h4
            cases obj with
            | sub s =>
              simp [dispatchState_eq, dispatchResult_paysucc_sub, exceptState]
            | inv i =>
              simp only [dispatchState_eq, dispatchResult_paysucc]
              exact invoice_state_idem db i t1 t1
          · have hother1 := dispatchResult_other db ⟨eid, etype, obj⟩ t1 h1 h2 h3 h4
            simp [dispatchState_eq, hother1, exceptState]

/-- C1 witness: a concrete created-subscription event delivered twice (at
different clock readings) leaves the store as after one delivery. -/
theorem webhookDispatchIdempotent_witness :
    dispatchState (dispatchState dbEmpty evtCreatedW 3) evtCreatedW 8
      = dispatchState dbEmpty evtCreatedW 3 :=
  (webhookDispatchIdempotent dbEmpty evtCreatedW 3 8).1 (Or.inl rfl)

/-- C1 counterexample to the unrestricted claim: a concrete
`customer.subscription.updated` event delivered a second time at a later
clock reading re-stamps the row's updatedAt, so the records are not in
the same state as after one delivery. -/
theorem webhookDispatchIdempotent_cex :
    dispatchState (dispatchState dbOneW evtUpdatedW 5) evtUpdatedW 9
      ≠ dispatchState dbOneW evtUpdatedW 5 := by decide

/-- C3 (amended): `handleInvoicePaymentSucceeded` mirrors the invoice into
a payments row whose id is the invoice's payment intent id when the
invoice carries one, and the fallback `"pi_" ++ invoice.id` otherwise;
amount, currency, status `succeeded`, subscription, customer and invoice
ids, receipt URL and `paid_at` (seconds, converted) are copied. -/
theorem invoicePaymentRowMirror (db : DB) (inv : StripeInvoice) (now : Int) (uid : String)
    (hu : invoiceUserId inv = some uid)
    (hfresh : db.payments.any (fun p => p.id == payRowId inv) = false) :
    handleInvoicePaymentSucceeded db inv now
      = .ok { db with payments := db.payments ++ [payRowOf inv uid now] } ∧
    (payRowOf inv uid now).id = payRowId inv ∧
    (∀ pid, inv.payment_intent = some pid → (pid == "") = false → payRowId inv = pid) ∧
    (inv.payment_intent = none → payRowId inv = "pi_" ++ inv.id) ∧
    (payRowOf inv uid now).userId = uid ∧
    (payRowOf inv uid now).amount = inv.amount_paid ∧
    (payRowOf inv uid now).currency = inv.currency ∧
    (payRowOf inv uid now).status = "succeeded" ∧
    (payRowOf inv uid now).stripeCustomerId = inv.customer ∧
    (payRowOf inv uid now).stripeInvoiceId = some inv.id ∧
    (∀ s, inv.subscription = some s → (s == "") = false →
      (payRowOf inv uid now).subscriptionId = some s) ∧
    (payRowOf inv uid now).receiptUrl = inv.hosted_invoice_url ∧
    (payRowOf inv uid now).paidAt = inv.status_transitions.paid_at * 1000 := by
  refine ⟨?_, rfl, ?_, ?_, rfl, rfl, rfl, rfl, rfl, rfl, ?_, rfl, rfl⟩
  · unfold handleInvoicePaymentSucceeded
    rw [hu]
    show insertPay db (payRowOf inv uid now) = _
    unfold insertPay
    rw [if_neg (by simpa [payRowOf_id] using hfresh)]
  · intro pid hpi hne
    unfold payRowId
    rw [hpi]
    simp [truthyStr, hne]
  · intro hnone
    unfold payRowId
    rw [hnone]
    rfl
  · intro s hs hne
    show (if truthyStr inv.subscription then inv.subscription else none) = some s
    rw [hs]
    simp [truthyStr, hne]

/-- C3 counterexample: an invoice with no payment intent still produces a
payment row, whose id is the fallback `"pi_" ++ invoice.id` — it cannot
equal the invoice's payment intent id, since the invoice has none. -/
theorem invoicePaymentIdFallback_cex :
    handleInvoicePaymentSucceeded dbEmpty invNoPi 7
      = .ok ⟨[], [payRowOf invNoPi "user_1" 7]⟩ ∧
    (payRowOf invNoPi "user_1" 7).id = "pi_" ++ invNoPi.id ∧
    (payRowOf invNoPi "user_1" 7).id = "pi_in_777" ∧
    invNoPi.payment_intent = none :=
  ⟨rfl, rfl, rfl, rfl⟩

/-- C3 witness: a concrete invoice with a payment intent id is mirrored
into a fresh payments row. -/
theorem invoicePaymentRowMirror_witness :
    handleInvoicePaymentSucceeded dbEmpty invW 2
      = .ok { dbEmpty with payments := dbEmpty.payments ++ [payRowOf invW "user_1" 2] } :=
  (invoicePaymentRowMirror dbEmpty invW 2 "user_1" rfl rfl).1

/-- C4: `handleSubscriptionCreated` inserts a row mirroring the provider
subscription (id, status, cancelAtPeriodEnd verbatim; period and trial
timestamps converted from Unix seconds, null trials staying null; userId
from the event metadata, customer from the event, price and product ids
from the first subscription item), and `handleSubscriptionUpdated` writes
the corresponding fields onto the row with the same id. -/
theorem subscriptionRowMirror (db : DB) (sub : StripeSubscription) (now : Int)
    (uid : String) (item : SubItemPrice) (rest : List SubItemPrice)
    (hu : sub.metadata.userId = some uid)
    (hne : (uid == "") = false)
    (hitems : sub.itemPrices = item :: rest)
    (hfresh : db.subscriptions.any (fun r => r.id == sub.id) = false) :
    handleSubscriptionCreated db sub now
      = .ok { db with subscriptions := db.subscriptions ++ [subRowOf sub uid item now] } ∧
    (subRowOf sub uid item now).id = sub.id ∧
    (subRowOf sub uid item now).status = sub.status ∧
    (subRowOf sub uid item now).cancelAtPeriodEnd = sub.cancel_at_period_end ∧
    (subRowOf sub uid item now).currentPeriodStart = sub.current_period_start * 1000 ∧
    (subRowOf sub uid item now).currentPeriodEnd = sub.current_period_end * 1000 ∧
    (subRowOf sub uid item now).trialStart = sub.trial_start.map (· * 1000) ∧
    (subRowOf sub uid item now).trialEnd = sub.trial_end.map (· * 1000) ∧
    (sub.trial_start = none → (subRowOf sub uid item now).trialStart = none) ∧
    (sub.trial_end = none → (subRowOf sub uid item now).trialEnd = none) ∧
    (subRowOf sub uid item now).userId = uid ∧
    (subRowOf sub uid item now).stripeCustomerId = sub.customer ∧
    (subRowOf sub uid item now).stripePriceId = item.id ∧
    (subRowOf sub uid item now).stripeProductId = item.product ∧
    (handleSubscriptionUpdated db sub now).subscriptions
      = db.subscriptions.map (fun r =>
          if r.id == sub.id then
            { r with
              status := sub.status
              cancelAtPeriodEnd := sub.cancel_at_period_end
              currentPeriodStart := sub.current_period_start * 1000
              currentPeriodEnd := sub.current_period_end * 1000
              canceledAt := sub.canceled_at.map (· * 1000)
              updatedAt := now }
          else r) ∧
    (handleSubscriptionUpdated db sub now).payments = db.payments := by
  refine ⟨?_, rfl, rfl, rfl, rfl, rfl, rfl, rfl, ?_, ?_, rfl, rfl, rfl, rfl, rfl, rfl⟩
  · have hkey : sub.metadata.userId.getD "" = uid := by
      rw [hu]
      rfl
    unfold handleSubscriptionCreated
    rw [hkey, hitems, if_neg (by simp [hne])]
    show insertSub db (subRowOf sub uid item now) = _
    unfold insertSub
    rw [if_neg (by simpa [subRowOf_id] using hfresh)]
  · intro h
    simp [subRowOf, h]
  · intro h
    simp [subRowOf, h]

/-- C4 witness: a concrete created event is mirrored into a fresh row. -/
theorem subscriptionRowMirror_witness :
    handleSubscriptionCreated dbEmpty subW 3
      = .ok { dbEmpty with
          subscriptions := dbEmpty.subscriptions
            ++ [subRowOf subW "user_1" ⟨"price_1", "prod_1"⟩ 3] } :=
  (subscriptionRowMirror dbEmpty subW 3 "user_1" ⟨"price_1", "prod_1"⟩ [] rfl rfl rfl rfl).1

/-- C5: `getSubscriptionStatus` is a read-through: 401 without a user;
otherwise `hasActiveSubscription` is true exactly when the store holds a
row for that user with status `active`, the returned view copies the first
such row's id, status, currentPeriodEnd and cancelAtPeriodEnd, and the
subscription view is null when no such row exists. -/
theorem subscriptionStatusReadThrough (db : DB) (a : AuthUser) :
    getSubscriptionStatus db none = .errorResponse "Unauthorized" 401 ∧
    ((∃ r ∈ db.subscriptions, r.userId = a.id ∧ r.status = "active") ↔
      ∃ v, getSubscriptionStatus db (some a) = .success true (some v)) ∧
    (∀ r, getUserSubscription db a.id = some r →
      getSubscriptionStatus db (some a)
        = .success true (some ⟨r.id, r.status, r.currentPeriodEnd, r.cancelAtPeriodEnd⟩)) ∧
    (getUserSubscription db a.id = none →
      getSubscriptionStatus db (some a) = .success false none) := by
  refine ⟨rfl, ⟨?_, ?_⟩, ?_, ?_⟩
  · rintro ⟨r, hr, hu, hs⟩
    have hsome : (getUserSubscription db a.id).isSome := by
      unfold getUserSubscription
      rw [List.find?_isSome]
      exact ⟨r, hr, by simp [hu, hs]⟩
    obtain ⟨r0, hr0⟩ := Option.isSome_iff_exists.mp hsome
    exact ⟨⟨r0.id, r0.status, r0.currentPeriodEnd, r0.cancelAtPeriodEnd⟩,
      by simp [getSubscriptionStatus, hr0]⟩
  · rintro ⟨v, hv⟩
    cases hq : getUserSubscription db a.id with
    | none => simp [getSubscriptionStatus, hq] at hv
    | some r =>
      have hpred := List.find?_some hq
      have hmem := List.mem_of_find?_eq_some hq
      simp only [Bool.and_eq_true, beq_iff_eq] at hpred
      exact ⟨r, hmem, hpred.1, hpred.2⟩
  · intro r h
    simp [getSubscriptionStatus, h]
  · intro h
    simp [getSubscriptionStatus, h]

/-- C5 witness: the status endpoint copies the concrete active row. -/
theorem subscriptionStatusReadThrough_witness :
    getSubscriptionStatus dbActiveW (some ⟨"user_1", "u@example.test"⟩)
      = .success true (some ⟨rowW.id, rowW.status, rowW.currentPeriodEnd,
          rowW.cancelAtPeriodEnd⟩) :=
  (subscriptionStatusReadThrough dbActiveW ⟨"user_1", "u@example.test"⟩).2.2.1 rowW rfl

/-- C8: `cancelSubscription` and `reactivateSubscription` rewrite only the
`cancelAtPeriodEnd` and `updatedAt` fields of the row whose id matches
(never `status`, never the payments table), so every row's status — and
`hasActiveSubscription` for every user — is unchanged. -/
theorem cancelReactivateFrame (db : DB) (sid : String) (now : Int) (u : String) :
    ((cancelSubscription db sid now).subscriptions
        = db.subscriptions.map (fun r =>
            if r.id == sid then { r with cancelAtPeriodEnd := true, updatedAt := now }
            else r)) ∧
    ((reactivateSubscription db sid now).subscriptions
        = db.subscriptions.map (fun r =>
            if r.id == sid then { r with cancelAtPeriodEnd := false, updatedAt := now }
            else r)) ∧
    ((cancelSubscription db sid now).payments = db.payments) ∧
    ((reactivateSubscription db sid now).payments = db.payments) ∧
    ((cancelSubscription db sid now).subscriptions.map SubRow.status
        = db.subscriptions.map SubRow.status) ∧
    ((reactivateSubscription db sid now).subscriptions.map SubRow.status
        = db.subscriptions.map SubRow.status) ∧
    ((cancelSubscription db sid now).subscriptions.map SubRow.id
        = db.subscriptions.map SubRow.id) ∧
    (hasActiveSubscription (cancelSubscription db sid now) u
        = hasActiveSubscription db u) ∧
    (hasActiveSubscription (reactivateSubscription db sid now) u
        = hasActiveSubscription db u) := by
  refine ⟨rfl, rfl, rfl, rfl, ?_, ?_, ?_, ?_, ?_⟩
  · exact map_proj_if SubRow.status (fun r => r.id == sid)
      (fun r => { r with cancelAtPeriodEnd := true, updatedAt := now })
      (fun r => rfl) db.subscriptions
  · exact map_proj_if SubRow.status (fun r => r.id == sid)
      (fun r => { r with cancelAtPeriodEnd := false, updatedAt := now })
      (fun r => rfl) db.subscriptions
  · exact map_proj_if SubRow.id (fun r => r.id == sid)
      (fun r => { r with cancelAtPeriodEnd := true, updatedAt := now })
      (fun r => rfl) db.subscriptions
  · exact find?_isSome_map_pres (fun r => r.userId == u && r.status == "active")
      (fun r => if r.id == sid then { r with cancelAtPeriodEnd := true, updatedAt := now }
                else r)
      (fun r => by by_cases hc : (r.id == sid) = true <;> simp [hc]) db.subscriptions
  · exact find?_isSome_map_pres (fun r => r.userId == u && r.status == "active")
      (fun r => if r.id == sid then { r with cancelAtPeriodEnd := false, updatedAt := now }
                else r)
      (fun r => by by_cases hc : (r.id == sid) = true <;> simp [hc]) db.subscriptions

/-- C10: the two webhook write paths treat a missing userId
asymmetrically: `handleSubscriptionCreated` throws (so the dispatcher
takes its error path and nothing is inserted), while
`handleInvoicePaymentSucceeded` returns silently with no write when
neither metadata location carries a userId. -/
theorem missingUserIdAsymmetry (db : DB) (now : Int) (eid : String)
    (sub : StripeSubscription) (inv : StripeInvoice)
    (hs : truthyStr sub.metadata.userId = false)
    (hi : invoiceUserId inv = none) :
    handleSubscriptionCreated db sub now
      = .error "No userId in subscription metadata" ∧
    dispatchEvent db ⟨eid, "customer.subscription.created", .sub sub⟩ now
      = (processingFailedResp, db) ∧
    handleInvoicePaymentSucceeded db inv now = .ok db ∧
    dispatchEvent db ⟨eid, "invoice.payment_succeeded", .inv inv⟩ now
      = (receivedResp, db) := by
  have hgetd : (sub.metadata.userId.getD "" == "") = true := by
    revert hs
    cases hm : sub.metadata.userId with
    | none => intro hs; rfl
    | some s =>
      intro hs
      simp [truthyStr] at hs
      simp [hs]
  have h1 : handleSubscriptionCreated db sub now
      = .error "No userId in subscription metadata" := by
    unfold handleSubscriptionCreated
    rw [if_pos hgetd]
  have h3 : handleInvoicePaymentSucceeded db inv now = .ok db := by
    unfold handleInvoicePaymentSucceeded
    rw [hi]
  refine ⟨h1, ?_, h3, ?_⟩
  · unfold dispatchEvent
    rw [dispatchResult_created db eid sub now, h1]
  · unfold dispatchEvent
    rw [dispatchResult_paysucc db eid inv now, h3]

/-- C10 witness: concrete userId-less subscription and invoice events. -/
theorem missingUserIdAsymmetry_witness :
    handleSubscriptionCreated dbEmpty subNoUid 0
      = .error "No userId in subscription metadata" ∧
    handleInvoicePaymentSucceeded dbEmpty invNoUid 0 = .ok dbEmpty :=
  ⟨(missingUserIdAsymmetry dbEmpty 0 "evt_9" subNoUid invNoUid rfl rfl).1,
   (missingUserIdAsymmetry dbEmpty 0 "evt_9" subNoUid invNoUid rfl rfl).2.2.1⟩

end VibeSDK
